import Mathlib

/-!
Verification of the ai-stocks bot against its specification.

The development shallowly embeds the Go source:
* `scheduleDaily`'s next-fire computation (both bot variants contain the
  identical function) over instants measured in integer nanoseconds,
* the dispatcher's `handleMessage` (two variants) and `sendDailyAnalytics`
  as pure functions from a message/state to the new subscriber set plus the
  list of outbound chat actions,
* `GenerateAnalytics` of the AI service and `GetMarketData` of the market
  data service, with the external HTTP collaborators passed in as oracle
  outcomes (`Except` values describing what the network call chain produced).

Machine integers (`int64`, chat and user identifiers) are modeled as `Int`;
`float64` market figures are modeled as `Rat` (every value those fields can
take comes from JSON `encoding/json` decoding or from concrete stub literals,
so NaN/Inf never arise and rational arithmetic is faithful).
-/

/-! ## Daily scheduler (`scheduleDaily`)

The Go function converts `time.Now()` to the Moscow zone, builds
`time.Date(now.Year(), now.Month(), now.Day(), hour, minute, 0, 0, loc)`
and, when `now.After(nextRun)`, adds `24 * time.Hour`.  Instants are modeled
as nanoseconds since an arbitrary epoch (`Int`, so arbitrarily early instants
are representable).  The zone is the fixed UTC+3 offset: that is the code's
documented fallback (`time.FixedZone("MSK", 3*60*60)`), and Europe/Moscow has
been fixed at UTC+3 with no transitions since 2014, so local midnight is a
uniform flooring of the instant shifted by the offset. -/

def nsPerSecond : Int := 1000000000

/-- 60 seconds. -/
def nsPerMinute : Int := 60000000000

/-- 60 minutes. -/
def nsPerHour : Int := 3600000000000

/-- 24 hours. -/
def nsPerDay : Int := 86400000000000

/-- `time.FixedZone("MSK", 3*60*60)`: UTC+3, i.e. 3 hours, in nanoseconds. -/
def mskOffset : Int := 10800000000000

/-- Hard-coded schedule of both bot variants: `DAILY_HOUR = 10`. -/
def DAILY_HOUR : Int := 10

/-- Hard-coded schedule of both bot variants: `DAILY_MINUTE = 0`. -/
def DAILY_MINUTE : Int := 0

/-- `time.Date(now.Year(), now.Month(), now.Day(), hour, minute, 0, 0, loc)`:
today's `hour:minute:00` in the configured zone, for the local calendar day
containing `now`.  The local day start is `now + offset` floored to a
multiple of a day (Go days are uniform 86400 s, no leap seconds). -/
def todayAtTime (hour minute now : Int) : Int :=
  (now + mskOffset) - (now + mskOffset) % nsPerDay
    + hour * nsPerHour + minute * nsPerMinute - mskOffset

/-- `nextRun` of `scheduleDaily`: the target instant, pushed one day later
when `now.After(nextRun)` (strict comparison in Go). -/
def nextRun (hour minute now : Int) : Int :=
  if now > todayAtTime hour minute now then
    todayAtTime hour minute now + 24 * nsPerHour
  else
    todayAtTime hour minute now

/-- `waitDuration := nextRun.Sub(now)` of `scheduleDaily`. -/
def waitDuration (hour minute now : Int) : Int :=
  nextRun hour minute now - now

/-! ## Event loop / dispatcher (`handleMessage`, `sendDailyAnalytics`)

The two bot entry points (`handleMessage` of the first variant parses
commands through tgbotapi's `Command()`, the second matches the whole text)
are embedded as pure functions.  A call produces the updated subscriber set,
the list of outbound chat-platform actions in order, and the number of
invocations of the completion collaborator `GenerateAnalytics`.  The
collaborator itself is an external HTTP call; its single outcome for the
call at hand is passed in as an `Except` oracle, and the identifier the
platform assigns to the placeholder message is passed in as `placeholderID`. -/

/-- `ADMIN_USER_ID = 449066543` in both bot variants. -/
def ADMIN_USER_ID : Int := 449066543

/-- A chat update: chat identifier, sender identifier, text. -/
structure TgMessage where
  chatID : Int
  userID : Int
  text : String
deriving DecidableEq

/-- Outbound chat-platform operations the dispatcher performs:
`tgbotapi.NewMessage` + `bot.Send`, and `tgbotapi.NewEditMessageText` +
`bot.Send`. -/
inductive ChatAction where
  | sendMessage : Int → String → ChatAction
  | editMessageText : Int → Nat → String → ChatAction
deriving DecidableEq

/-- Result of one dispatcher handler call: new subscriber set, outbound
actions in order, number of `GenerateAnalytics` invocations. -/
structure HandleResult where
  subs : Finset Int
  actions : List ChatAction
  genCalls : Nat
deriving DecidableEq

def slash : String := "/"

def startCmd : String := "start"

def subscribeCmd : String := "subscribe"

def unsubscribeCmd : String := "unsubscribe"

def analyticsCmd : String := "analytics"

def startSlash : String := "/start"

def subscribeSlash : String := "/subscribe"

def unsubscribeSlash : String := "/unsubscribe"

def analyticsSlash : String := "/analytics"

/-- Base welcome text of `/start` (identical in both variants). -/
def welcomeBase : String := "Привет! 👋 Я твой милый помощник по инвестициям! 💖\n\nЯ буду каждый день в 10:00 по Москве отправлять тебе аналитику по российскому рынку с рекомендациями куда вложить 1000 рублей! 💰\n\nИспользуй команды:\n/subscribe - подписаться на ежедневную аналитику 📊\n/unsubscribe - отписаться от ежедневной аналитики 🚫\n/analytics - получить аналитику прямо сейчас ✨"

/-- Suffix appended to the welcome text for the administrator. -/
def adminSuffix : String := "\n\n🔐 Вы администратор бота и имеете доступ ко всем функциям!"

/-- Welcome text as sent, depending on the caller. -/
def welcomeTextFor (userID : Int) : String :=
  if userID = ADMIN_USER_ID then welcomeBase ++ adminSuffix else welcomeBase

/-- Fixed refusal sent to non-administrators for gated commands. -/
def refusalText : String := "Извините, но эта команда доступна только администратору бота! 🔒"

/-- Confirmation sent after `/subscribe`. -/
def subscribeOkText : String := "Вы успешно подписались на ежедневную аналитику! 🎉 Ожидайте первый выпуск в 10:00 по Москве! 💖"

/-- Confirmation sent after `/unsubscribe`. -/
def unsubscribeOkText : String := "Вы отписались от ежедневной аналитики 😢 Будем скучать! 💔"

/-- Immediate placeholder sent by `/analytics`. -/
def placeholderText : String := "Генерирую аналитику, пожалуйста, подождите... ⏳"

/-- Fixed user-facing error sent when `GenerateAnalytics` fails under
`/analytics`. -/
def analyticsErrorText : String := "Извини, произошла ошибка при генерации аналитики 😢 Попробуй позже! 💕"

/-- Reply of the second bot variant to an unrecognized admin command. -/
def unknownCommandText : String := "Прости, я не понимаю эту команду 🥺 Используй /start чтобы увидеть список команд! 💕"

/-- Go's `len(message.Text) == 0 || message.Text[0] != '/'` guard, negated:
whether the text begins with a slash (the first UTF-8 byte is `'/'` exactly
when the first character is). -/
def startsWithSlash (text : String) : Bool :=
  match text.data with
  | [] => false
  | c :: _ => c == '/'

/-- Character-list body of tgbotapi `Message.Command()`: empty unless the
text starts with `/`; otherwise the first word after the slash, with a
trailing `@botname` mention stripped. -/
def commandChars (cs : List Char) : List Char :=
  match cs with
  | [] => []
  | c :: rest =>
    if c = '/' then (rest.takeWhile (fun d => d != ' ')).takeWhile (fun d => d != '@')
    else []

/-- tgbotapi `Message.Command()` for a plain text message. -/
def commandOf (text : String) : String :=
  String.mk (commandChars text.data)

/-- Shared `/analytics` handler body (identical in both variants): send the
placeholder, invoke the collaborator once; on success edit the placeholder
to the result, on failure send a fresh message with the fixed error text. -/
def analyticsBranch (chatID : Int) (subs : Finset Int)
    (genOutcome : Except String String) (placeholderID : Nat) : HandleResult :=
  match genOutcome with
  | Except.error _ =>
    { subs := subs
      actions := [ChatAction.sendMessage chatID placeholderText,
                  ChatAction.sendMessage chatID analyticsErrorText]
      genCalls := 1 }
  | Except.ok analytics =>
    { subs := subs
      actions := [ChatAction.sendMessage chatID placeholderText,
                  ChatAction.editMessageText chatID placeholderID analytics]
      genCalls := 1 }

/-- `handleMessage` of the first bot variant: ignores texts not starting
with `/`, dispatches on `Command()`, gates `subscribe`/`unsubscribe`/
`analytics` on the administrator identifier (the Go code returns the refusal
when `!isAdmin`; here the admin test selects the worker branch), and ignores
unknown commands. -/
def handleMessageA (msg : TgMessage) (subs : Finset Int)
    (genOutcome : Except String String) (placeholderID : Nat) : HandleResult :=
  if startsWithSlash msg.text then
    if commandOf msg.text = startCmd then
      { subs := subs
        actions := [ChatAction.sendMessage msg.chatID (welcomeTextFor msg.userID)]
        genCalls := 0 }
    else if commandOf msg.text = subscribeCmd ∨ commandOf msg.text = unsubscribeCmd
        ∨ commandOf msg.text = analyticsCmd then
      if msg.userID = ADMIN_USER_ID then
        if commandOf msg.text = subscribeCmd then
          { subs := insert msg.chatID subs
            actions := [ChatAction.sendMessage msg.chatID subscribeOkText]
            genCalls := 0 }
        else if commandOf msg.text = unsubscribeCmd then
          { subs := subs.erase msg.chatID
            actions := [ChatAction.sendMessage msg.chatID unsubscribeOkText]
            genCalls := 0 }
        else
          analyticsBranch msg.chatID subs genOutcome placeholderID
      else
        { subs := subs
          actions := [ChatAction.sendMessage msg.chatID refusalText]
          genCalls := 0 }
    else
      { subs := subs, actions := [], genCalls := 0 }
  else
    { subs := subs, actions := [], genCalls := 0 }

/-- `handleMessage` of the second bot variant: matches the whole text;
`/start` is free; every other text from a non-administrator gets the
refusal; unknown admin input gets the fixed unknown-command reply. -/
def handleMessageB (msg : TgMessage) (subs : Finset Int)
    (genOutcome : Except String String) (placeholderID : Nat) : HandleResult :=
  if msg.text = startSlash then
    { subs := subs
      actions := [ChatAction.sendMessage msg.chatID (welcomeTextFor msg.userID)]
      genCalls := 0 }
  else if msg.userID = ADMIN_USER_ID then
    if msg.text = subscribeSlash then
      { subs := insert msg.chatID subs
        actions := [ChatAction.sendMessage msg.chatID subscribeOkText]
        genCalls := 0 }
    else if msg.text = unsubscribeSlash then
      { subs := subs.erase msg.chatID
        actions := [ChatAction.sendMessage msg.chatID unsubscribeOkText]
        genCalls := 0 }
    else if msg.text = analyticsSlash then
      analyticsBranch msg.chatID subs genOutcome placeholderID
    else
      { subs := subs
        actions := [ChatAction.sendMessage msg.chatID unknownCommandText]
        genCalls := 0 }
  else
    { subs := subs
      actions := [ChatAction.sendMessage msg.chatID refusalText]
      genCalls := 0 }

/-- Result of one scheduled broadcast: the (unchanged) subscriber set, the
attempted sends in iteration order, the recipients whose send failed (they
are only logged), and the number of `GenerateAnalytics` invocations. -/
structure BroadcastResult where
  subs : Finset Int
  actions : List ChatAction
  failedChats : List Int
  genCalls : Nat
deriving DecidableEq

/-- `sendDailyAnalytics`: invoke the collaborator once; on failure log and
return with no sends; on success send the one generated text to every
subscribed chat, logging (and otherwise ignoring) per-recipient failures.
Go iterates the map in unspecified order; the snapshot is modeled as the
sorted list of the set.  `sendFails` is the oracle telling which recipients'
`bot.Send` returns an error. -/
def sendDailyAnalytics (subs : Finset Int) (genOutcome : Except String String)
    (sendFails : Int → Bool) : BroadcastResult :=
  match genOutcome with
  | Except.error _ =>
    { subs := subs, actions := [], failedChats := [], genCalls := 1 }
  | Except.ok analytics =>
    { subs := subs
      actions := (Finset.sort (· ≤ ·) subs).map
        (fun chatID => ChatAction.sendMessage chatID analytics)
      failedChats := (Finset.sort (· ≤ ·) subs).filter (fun chatID => sendFails chatID)
      genCalls := 1 }

/-- Whether an action is a send of exactly `body` to chat `c`. -/
def isSendTo (c : Int) (body : String) : ChatAction → Bool
  | ChatAction.sendMessage c2 b2 => c2 == c && b2 == body
  | ChatAction.editMessageText _ _ _ => false

/-- Number of sends of `body` to chat `c` among `acts`. -/
def countSendsTo (acts : List ChatAction) (c : Int) (body : String) : Nat :=
  acts.countP (isSendTo c body)

/-- Whether an action is an edit of a previously sent message. -/
def isEditAction : ChatAction → Bool
  | ChatAction.editMessageText _ _ _ => true
  | _ => false

/-! ## Completion collaborator (`AIService.GenerateAnalytics`, src/ai_service.go)

The variant in `ai_service.go` checks the configured credential: with no
API key it returns the local canned analytics (formatted with the current
Moscow date) and a nil error, without touching the network.  Otherwise it
runs the HTTP request/parse chain against the hosted endpoint; that chain is
external and is passed in as an oracle outcome. -/

/-- The empty credential, `s.config.APIKey == ""`. -/
def emptyCredential : String := ""

/-- Opening of the `getLocalAnalytics` template, up to the formatted date. -/
def localAnalyticsHead : String := "✨ *Ежедневная аналитика рынка* ✨\n🗓 *"

/-- Remainder of the `getLocalAnalytics` template, after the formatted date. -/
def localAnalyticsTail : String := "*\n\nПриветик, дорогой инвестор! 👋💕\n\nСегодня российский рынок выглядит очень интересно! 📊 Я проанализировала все тренды специально для тебя! 🌟\n\n🔍 *Общая ситуация на рынке РФ*:\nИндекс Мосбиржи сегодня показывает небольшой рост, что создаёт приятные возможности для инвестиций! 💫 Рубль стабилен, что хорошо для прогнозирования! 🧮\n\n💰 *Куда вложить 1000 рублей*:\nДля такой суммы я рекомендую обратить внимание на акции компании \"Газпром\" через Сбер Инвестиции! 🏦 Сейчас они торгуются по привлекательной цене и имеют хороший потенциал роста в ближайшие месяцы! 📈\n\nАльтернативный вариант - накопительный вклад в Тинькофф со ставкой 16% годовых для новых клиентов! 💝 Это безопасный способ сохранить деньги в текущих условиях! 🔐\n\n🌈 *Почему это выгодно*:\nГазпром выплачивает стабильные дивиденды, а текущая конъюнктура рынка энергоносителей благоприятна для компании! ✅ Даже с 1000 рублей ты сможешь получить настоящий инвестиционный опыт! 🤓\n\n🎁 *Уникальный совет по подработке*:\nЗнаешь ли ты, что можно зарабатывать на своих знаниях? 🧠 Платформа Яндекс.Кью платит за качественные ответы на вопросы! 💡 Некоторые эксперты зарабатывают там до 20000 рублей в месяц, уделяя всего 2 часа в день! 🕰️ Это отличная возможность монетизировать свою экспертизу! 💸\n\nНадеюсь, моя аналитика была полезной! 🌺 Жду тебя завтра с новыми инсайтами! 💖\n\nТвой финансовый помощник! 💝"

/-- `getLocalAnalytics`: the canned fallback analytics, `fmt.Sprintf` of the
template with the current Moscow date string. -/
def getLocalAnalytics (dateStr : String) : String :=
  localAnalyticsHead ++ dateStr ++ localAnalyticsTail

/-- `GenerateAnalytics` of src/ai_service.go.  Returns the `(text, error)`
pair and whether the hosted endpoint call chain was entered.
`endpointOutcome` is the oracle for the external chain (marshal, HTTP send,
body read, unmarshal, API-error field, empty-choices check). -/
def generateAnalytics (apiKey : String) (dateStr : String)
    (endpointOutcome : Except String String) : Except String String × Bool :=
  if apiKey = emptyCredential then (Except.ok (getLocalAnalytics dateStr), false)
  else (endpointOutcome, true)

/-! ## Market data collaborator (`MarketDataService.GetMarketData`)

`GetMarketData` glues three upstream fetches (`getMOEXData`,
`getMarketNews`, `getTopStocks`), each an external HTTP call passed in as an
oracle outcome, substituting a stub on each failure, and picks the
recommended stock as the running maximum of `Change` over the top-stocks
slice.  `float64` figures are modeled as `Rat`. -/

structure StockInfo where
  ticker : String
  name : String
  price : Rat
  change : Rat
  currency : String
  sourceURL : String
deriving DecidableEq

structure NewsItem where
  title : String
  source : String
  url : String
  timestampNs : Int
deriving DecidableEq

structure MarketData where
  indexMOEX : Rat
  indexRTS : Rat
  usdRate : Rat
  eurRate : Rat
  topStocks : List StockInfo
  recommendedStock : StockInfo
  marketTrend : String
  marketNews : List NewsItem
deriving DecidableEq

/-- Go zero value of `StockInfo` (fields left out of a struct literal). -/
def zeroStock : StockInfo :=
  { ticker := "", name := "", price := 0, change := 0, currency := "", sourceURL := "" }

/-- Stub `MarketData` used when `getMOEXData` fails (unlisted fields are Go
zero values). -/
def stubMoexData : MarketData :=
  { indexMOEX := 4100, indexRTS := 1100, usdRate := 90.5, eurRate := 98.7,
    topStocks := [], recommendedStock := zeroStock, marketTrend := "stable",
    marketNews := [] }

/-- First stub stock of the `getTopStocks` fallback slice. -/
def stubGAZP : StockInfo :=
  { ticker := "GAZP", name := "Газпром", price := 164.82, change := 0.63,
    currency := "RUB", sourceURL := "" }

/-- Second stub stock of the `getTopStocks` fallback slice. -/
def stubSBER : StockInfo :=
  { ticker := "SBER", name := "Сбербанк", price := 287.45, change := 1.12,
    currency := "RUB", sourceURL := "" }

/-- Third stub stock of the `getTopStocks` fallback slice. -/
def stubLKOH : StockInfo :=
  { ticker := "LKOH", name := "Лукойл", price := 7046.5, change := -0.35,
    currency := "RUB", sourceURL := "" }

/-- Stub top-stocks slice used when `getTopStocks` fails. -/
def stubStocks : List StockInfo := [stubGAZP, stubSBER, stubLKOH]

/-- Stub recommended stock used when the top-stocks slice is empty. -/
def recommendedStub : StockInfo :=
  { ticker := "GAZP", name := "Газпром", price := 164.82, change := 0.63,
    currency := "RUB", sourceURL := "" }

/-- The `bestStock` loop of `GetMarketData`: running best over the slice,
replaced whenever `stock.Change > bestStock.Change`. -/
def bestStockOf (cur : StockInfo) (stocks : List StockInfo) : StockInfo :=
  match stocks with
  | [] => cur
  | s :: rest => bestStockOf (if s.change > cur.change then s else cur) rest

/-- `GetMarketData`: stub-fill each failed upstream fetch, then derive the
recommended stock.  The three oracle arguments are the outcomes of the
upstream HTTP call chains. -/
def getMarketData (moexOutcome : Except String MarketData)
    (newsOutcome : Except String (List NewsItem))
    (stocksOutcome : Except String (List StockInfo)) : Except String MarketData :=
  let moexData :=
    match moexOutcome with
    | Except.ok d => d
    | Except.error _ => stubMoexData
  let news :=
    match newsOutcome with
    | Except.ok n => n
    | Except.error _ => []
  let stocks :=
    match stocksOutcome with
    | Except.ok s => s
    | Except.error _ => stubStocks
  let recommended :=
    match stocks with
    | first :: _ => bestStockOf first stocks
    | [] => recommendedStub
  Except.ok { moexData with
    marketNews := news, topStocks := stocks, recommendedStock := recommended }

/-- A string used as a concrete upstream failure in witnesses. -/
def failureMsg : String := "upstream unavailable"

/-- Concrete date string used in witnesses, in the `02.01.2006` Go layout. -/
def sampleDate : String := "11.10.2026"

/-- Concrete non-command text used for the unrecognized-input claims. -/
def helloText : String := "hello"

/-- Concrete generated analytics text used in witnesses. -/
def sampleAnalytics : String := "TEXT"

/-! ## Helper lemmas -/

/-- The running-best loop of `GetMarketData` returns its seed or a list
element, is an upper bound of the seed, and is an upper bound of every
element of the list. -/
theorem bestStockOf_spec (cur : StockInfo) (stocks : List StockInfo) :
    (bestStockOf cur stocks = cur ∨ bestStockOf cur stocks ∈ stocks) ∧
    cur.change ≤ (bestStockOf cur stocks).change ∧
    ∀ s ∈ stocks, s.change ≤ (bestStockOf cur stocks).change := by
  induction stocks generalizing cur with
  | nil =>
    refine ⟨Or.inl rfl, le_refl _, ?_⟩
    intro s hs
    simp at hs
  | cons s rest ih =>
    have hstep : bestStockOf cur (s :: rest)
        = bestStockOf (if s.change > cur.change then s else cur) rest := rfl
    rcases ih (if s.change > cur.change then s else cur) with ⟨hmem, hle, hall⟩
    have hcur : cur.change ≤ (if s.change > cur.change then s else cur).change := by
      split_ifs with hgt
      · exact le_of_lt hgt
      · exact le_refl _
    have hs : s.change ≤ (if s.change > cur.change then s else cur).change := by
      split_ifs with hgt
      · exact le_refl _
      · exact le_of_not_lt hgt
    refine ⟨?_, ?_, ?_⟩
    · rw [hstep]
      rcases hmem with heq | hmem2
      · rw [heq]
        split_ifs with hgt
        · exact Or.inr (List.mem_cons_self _ _)
        · exact Or.inl rfl
      · exact Or.inr (List.mem_cons_of_mem _ hmem2)
    · rw [hstep]
      exact le_trans hcur hle
    · intro t ht
      rw [hstep]
      rcases List.mem_cons.mp ht with rfl | ht2
      · exact le_trans hs hle
      · exact hall t ht2

/-- Seeded with the head of the list, the running best is an element of the
list and maximizes `change` over it. -/
theorem bestStockOf_head_mem (first : StockInfo) (rest : List StockInfo) :
    bestStockOf first (first :: rest) ∈ first :: rest ∧
    ∀ s ∈ first :: rest, s.change ≤ (bestStockOf first (first :: rest)).change := by
  rcases bestStockOf_spec first (first :: rest) with ⟨hmem, _, hall⟩
  refine ⟨?_, hall⟩
  rcases hmem with heq | hm
  · rw [heq]
    exact List.mem_cons_self _ _
  · exact hm

/-- First bot variant: each of the three gated commands from a
non-administrator yields only the fixed refusal. -/
theorem handleMessageA_gated_nonadmin (chat uid : Int) (subs : Finset Int)
    (gen : Except String String) (pid : Nat) (t : String)
    (huid : uid ≠ ADMIN_USER_ID)
    (ht : t = subscribeSlash ∨ t = unsubscribeSlash ∨ t = analyticsSlash) :
    handleMessageA ⟨chat, uid, t⟩ subs gen pid
      = { subs := subs, actions := [ChatAction.sendMessage chat refusalText],
          genCalls := 0 } := by
  rcases ht with rfl | rfl | rfl <;>
    · simp only [handleMessageA]
      rw [if_pos (by decide), if_neg (by decide), if_pos (by decide), if_neg huid]

/-- Second bot variant: each of the three gated commands from a
non-administrator yields only the fixed refusal. -/
theorem handleMessageB_gated_nonadmin (chat uid : Int) (subs : Finset Int)
    (gen : Except String String) (pid : Nat) (t : String)
    (huid : uid ≠ ADMIN_USER_ID)
    (ht : t = subscribeSlash ∨ t = unsubscribeSlash ∨ t = analyticsSlash) :
    handleMessageB ⟨chat, uid, t⟩ subs gen pid
      = { subs := subs, actions := [ChatAction.sendMessage chat refusalText],
          genCalls := 0 } := by
  rcases ht with rfl | rfl | rfl <;>
    · simp only [handleMessageB]
      rw [if_neg (by decide), if_neg huid]

/-! ## Claims -/

/-- Claim C1, counterexample: when the current instant is exactly today's
target instant (here 10:00:00 MSK), the computed wait is zero — the
next-fire instant is not strictly in the future and no 24 hours are added,
although the current instant is at (hence at-or-after) the target. -/
theorem C1_counterexample :
    7 * nsPerHour = todayAtTime 10 0 (7 * nsPerHour) ∧
    waitDuration 10 0 (7 * nsPerHour) = 0 ∧
    nextRun 10 0 (7 * nsPerHour) ≠ todayAtTime 10 0 (7 * nsPerHour) + 24 * nsPerHour := by
  refine ⟨by decide, by decide, by decide⟩

/-- Claim C1, amended: for every schedule (hour ∈ [0,23], minute ∈ [0,59])
and every current instant, the next-fire instant is at or after the current
instant (equality exactly when the current instant is precisely today's
target), at most 24 hours away, and falls at the configured hour:minute:00
in the configured zone; exactly 24 hours are added precisely when the
current instant is strictly after today's target instant. -/
theorem C1_theorem (hour minute now : Int)
    (hh0 : 0 ≤ hour) (hh1 : hour ≤ 23) (hm0 : 0 ≤ minute) (hm1 : minute ≤ 59) :
    0 ≤ waitDuration hour minute now ∧
    waitDuration hour minute now ≤ nsPerDay ∧
    (nextRun hour minute now + mskOffset) % nsPerDay
      = hour * nsPerHour + minute * nsPerMinute ∧
    (now > todayAtTime hour minute now →
      nextRun hour minute now = todayAtTime hour minute now + 24 * nsPerHour) ∧
    (waitDuration hour minute now = 0 ↔ now = todayAtTime hour minute now) := by
  simp only [waitDuration, nextRun, todayAtTime, nsPerDay, nsPerHour, nsPerMinute,
    nsPerSecond, mskOffset]
  split_ifs <;> refine ⟨by omega, by omega, by omega, by omega, by omega⟩

/-- Witness for C1_theorem at hour 10, minute 0, instant 0. -/
theorem C1_witness :
    0 ≤ waitDuration 10 0 0 ∧
    waitDuration 10 0 0 ≤ nsPerDay ∧
    (nextRun 10 0 0 + mskOffset) % nsPerDay = 10 * nsPerHour + 0 * nsPerMinute ∧
    (0 > todayAtTime 10 0 0 →
      nextRun 10 0 0 = todayAtTime 10 0 0 + 24 * nsPerHour) ∧
    (waitDuration 10 0 0 = 0 ↔ 0 = todayAtTime 10 0 0) :=
  C1_theorem 10 0 0 (by decide) (by decide) (by decide) (by decide)

/-- Claim C2: if the scheduler fired at instant `t` (an instant lying at the
configured hour:minute:00 in the configured zone) and the loop recomputes at
any instant strictly after `t` but before `t` plus a day (normal operation:
time has advanced, and by less than a day), then the recomputed wait is
strictly positive and the new next-fire instant is exactly the next day's
hour:minute:00, i.e. `t` plus 24 hours — so no second signal is emitted for
`t`'s nominal day and the next day's signal is not skipped. -/
theorem C2_theorem (hour minute t now : Int)
    (hh0 : 0 ≤ hour) (hh1 : hour ≤ 23) (hm0 : 0 ≤ minute) (hm1 : minute ≤ 59)
    (hfire : (t + mskOffset) % nsPerDay = hour * nsPerHour + minute * nsPerMinute)
    (h1 : t < now) (h2 : now < t + nsPerDay) :
    0 < waitDuration hour minute now ∧
    nextRun hour minute now = t + nsPerDay := by
  simp only [waitDuration, nextRun, todayAtTime, nsPerDay, nsPerHour, nsPerMinute,
    nsPerSecond, mskOffset] at *
  split_ifs <;> exact ⟨by omega, by omega⟩

/-- Witness for C2_theorem: fire at 10:00 MSK (instant `7 * nsPerHour`),
recompute one hour later. -/
theorem C2_witness :
    0 < waitDuration 10 0 (8 * nsPerHour) ∧
    nextRun 10 0 (8 * nsPerHour) = 7 * nsPerHour + nsPerDay :=
  C2_theorem 10 0 (7 * nsPerHour) (8 * nsPerHour) (by decide) (by decide) (by decide)
    (by decide) (by decide) (by decide) (by decide)

/-- Claim C3, counterexample: when the administrator sends `/analytics` and
the collaborator fails, the handler sends the placeholder and then a *new*
message carrying the fixed error text — it performs no edit of the
placeholder at all, contradicting "exactly one edit of that placeholder to
the fixed error text". -/
theorem C3_counterexample :
    (handleMessageA ⟨1, ADMIN_USER_ID, analyticsSlash⟩ (∅ : Finset Int)
        (Except.error failureMsg) 7).actions
      = [ChatAction.sendMessage 1 placeholderText,
         ChatAction.sendMessage 1 analyticsErrorText] ∧
    ((handleMessageA ⟨1, ADMIN_USER_ID, analyticsSlash⟩ (∅ : Finset Int)
        (Except.error failureMsg) 7).actions.countP isEditAction) = 0 :=
  ⟨rfl, rfl⟩

/-- Claim C3, amended: when the administrator sends `/analytics` and the
completion collaborator fails, the administrator receives exactly one
placeholder message followed by exactly one fresh message with the fixed
error text (the placeholder is left unedited), the collaborator is invoked
exactly once (no retry), and the subscriber set is unchanged — in both bot
variants; the handler is a total function, so no exception escapes. -/
theorem C3_theorem (chat : Int) (subs : Finset Int) (e : String) (pid : Nat) :
    handleMessageA ⟨chat, ADMIN_USER_ID, analyticsSlash⟩ subs (Except.error e) pid
      = { subs := subs
          actions := [ChatAction.sendMessage chat placeholderText,
                      ChatAction.sendMessage chat analyticsErrorText]
          genCalls := 1 } ∧
    handleMessageB ⟨chat, ADMIN_USER_ID, analyticsSlash⟩ subs (Except.error e) pid
      = { subs := subs
          actions := [ChatAction.sendMessage chat placeholderText,
                      ChatAction.sendMessage chat analyticsErrorText]
          genCalls := 1 } :=
  ⟨rfl, rfl⟩

/-- Claim C4: on a wake signal with a successful generation, the
collaborator is invoked exactly once however many subscribers there are, the
one generated text is sent to every subscriber in the snapshot (each exactly
once), the attempted sends do not depend on which recipients' deliveries
fail, and the subscriber set is unchanged (no auto-unsubscribe). -/
theorem C4_theorem (subs : Finset Int) (analytics : String) (sendFails : Int → Bool)
    (c : Int) (hc : c ∈ subs) :
    (sendDailyAnalytics subs (Except.ok analytics) sendFails).genCalls = 1 ∧
    (sendDailyAnalytics subs (Except.ok analytics) sendFails).subs = subs ∧
    (sendDailyAnalytics subs (Except.ok analytics) sendFails).actions
      = (Finset.sort (· ≤ ·) subs).map (fun x => ChatAction.sendMessage x analytics) ∧
    countSendsTo (sendDailyAnalytics subs (Except.ok analytics) sendFails).actions
      c analytics = 1 := by
  refine ⟨rfl, rfl, rfl, ?_⟩
  show ((Finset.sort (· ≤ ·) subs).map
      (fun x => ChatAction.sendMessage x analytics)).countP (isSendTo c analytics) = 1
  rw [List.countP_map]
  have hfun : (isSendTo c analytics ∘ fun x : Int => ChatAction.sendMessage x analytics)
      = (fun x : Int => x == c) := by
    funext x
    simp [isSendTo, Function.comp]
  rw [hfun]
  have hcount := List.count_eq_one_of_mem (Finset.sort_nodup (· ≤ ·) subs)
    ((Finset.mem_sort (· ≤ ·)).mpr hc)
  simpa [List.count_eq_countP] using hcount

/-- Witness for C4_theorem: one subscriber (chat 5), every delivery failing. -/
theorem C4_witness :
    (sendDailyAnalytics {5} (Except.ok sampleAnalytics) (fun _ => true)).genCalls = 1 ∧
    (sendDailyAnalytics {5} (Except.ok sampleAnalytics) (fun _ => true)).subs = {5} ∧
    (sendDailyAnalytics {5} (Except.ok sampleAnalytics) (fun _ => true)).actions
      = (Finset.sort (· ≤ ·) ({5} : Finset Int)).map
          (fun x => ChatAction.sendMessage x sampleAnalytics) ∧
    countSendsTo (sendDailyAnalytics {5} (Except.ok sampleAnalytics)
      (fun _ => true)).actions 5 sampleAnalytics = 1 :=
  C4_theorem {5} sampleAnalytics (fun _ => true) 5 (by decide)

/-- Claim C5: when the collaborator fails during a scheduled broadcast, zero
messages are sent, nothing is logged as a delivery failure, the collaborator
was invoked the one time, and the subscriber set is unchanged. -/
theorem C5_theorem (subs : Finset Int) (e : String) (sendFails : Int → Bool) :
    sendDailyAnalytics subs (Except.error e) sendFails
      = { subs := subs, actions := [], failedChats := [], genCalls := 1 } :=
  rfl

/-- Claim C6: in both bot variants, a caller whose sender identifier is not
the administrator gets exactly the fixed refusal message from each of the
three gated commands, and the subscriber set is unchanged. -/
theorem C6_theorem (chat uid : Int) (subs : Finset Int) (gen : Except String String)
    (pid : Nat) (t : String)
    (huid : uid ≠ ADMIN_USER_ID)
    (ht : t = subscribeSlash ∨ t = unsubscribeSlash ∨ t = analyticsSlash) :
    handleMessageA ⟨chat, uid, t⟩ subs gen pid
      = { subs := subs, actions := [ChatAction.sendMessage chat refusalText],
          genCalls := 0 } ∧
    handleMessageB ⟨chat, uid, t⟩ subs gen pid
      = { subs := subs, actions := [ChatAction.sendMessage chat refusalText],
          genCalls := 0 } :=
  ⟨handleMessageA_gated_nonadmin chat uid subs gen pid t huid ht,
   handleMessageB_gated_nonadmin chat uid subs gen pid t huid ht⟩

/-- Witness for C6_theorem: user 1 sends `/subscribe` on chat 5 with an
empty subscriber set (end-to-end scenario 2). -/
theorem C6_witness :
    handleMessageA ⟨5, 1, subscribeSlash⟩ (∅ : Finset Int) (Except.ok sampleAnalytics) 0
      = { subs := ∅, actions := [ChatAction.sendMessage 5 refusalText], genCalls := 0 } ∧
    handleMessageB ⟨5, 1, subscribeSlash⟩ (∅ : Finset Int) (Except.ok sampleAnalytics) 0
      = { subs := ∅, actions := [ChatAction.sendMessage 5 refusalText], genCalls := 0 } :=
  C6_theorem 5 1 ∅ (Except.ok sampleAnalytics) 0 subscribeSlash (by decide) (Or.inl rfl)

/-- Claim C7, counterexample: in the second bot variant, plain non-command
text ("hello", no leading slash, not a recognized command) from a
non-administrator is answered with the fixed refusal message, not ignored. -/
theorem C7_counterexample :
    startsWithSlash helloText = false ∧
    commandOf helloText ∉ [startCmd, subscribeCmd, unsubscribeCmd, analyticsCmd] ∧
    (handleMessageB ⟨5, 1, helloText⟩ (∅ : Finset Int)
        (Except.ok sampleAnalytics) 0).actions
      = [ChatAction.sendMessage 5 refusalText] :=
  ⟨rfl, by decide, rfl⟩

/-- Claim C7, amended: an update that is not a recognized command always
leaves the subscriber set unchanged; the first bot variant sends no reply at
all, while the second variant does reply — with the fixed unknown-command
text when the sender is the administrator and with the fixed refusal
otherwise. -/
theorem C7_theorem (msg : TgMessage) (subs : Finset Int) (gen : Except String String)
    (pid : Nat)
    (hA : commandOf msg.text ∉ [startCmd, subscribeCmd, unsubscribeCmd, analyticsCmd])
    (hB : msg.text ∉ [startSlash, subscribeSlash, unsubscribeSlash, analyticsSlash]) :
    handleMessageA msg subs gen pid = { subs := subs, actions := [], genCalls := 0 } ∧
    handleMessageB msg subs gen pid
      = { subs := subs
          actions := [ChatAction.sendMessage msg.chatID
            (if msg.userID = ADMIN_USER_ID then unknownCommandText else refusalText)]
          genCalls := 0 } := by
  simp only [List.mem_cons, List.not_mem_nil, or_false, not_or] at hA hB
  obtain ⟨hA1, hA2, hA3, hA4⟩ := hA
  obtain ⟨hB1, hB2, hB3, hB4⟩ := hB
  constructor
  · simp only [handleMessageA]
    cases hsl : startsWithSlash msg.text
    · rfl
    · rw [if_pos rfl, if_neg hA1, if_neg (by simp [hA2, hA3, hA4])]
  · simp only [handleMessageB]
    by_cases hadm : msg.userID = ADMIN_USER_ID
    · simp only [if_neg hB1, if_pos hadm, if_neg hB2, if_neg hB3, if_neg hB4]
    · simp only [if_neg hB1, if_neg hadm]

/-- Witness for C7_theorem: non-administrator user 1 sends "hello". -/
theorem C7_witness :
    handleMessageA ⟨5, 1, helloText⟩ (∅ : Finset Int) (Except.ok sampleAnalytics) 0
      = { subs := ∅, actions := [], genCalls := 0 } ∧
    handleMessageB ⟨5, 1, helloText⟩ (∅ : Finset Int) (Except.ok sampleAnalytics) 0
      = { subs := ∅, actions := [ChatAction.sendMessage 5 refusalText], genCalls := 0 } :=
  C7_theorem ⟨5, 1, helloText⟩ ∅ (Except.ok sampleAnalytics) 0 (by decide) (by decide)

/-- Claim C8: in both bot variants (administrator caller, since the
commands are gated), subscribing the same chat twice leaves exactly one
entry for that chat and equals the set after one subscribe, and
unsubscribing a chat that is not present leaves the set unchanged. -/
theorem C8_theorem (chat : Int) (subs : Finset Int) (gen : Except String String)
    (pid : Nat) :
    ((handleMessageA ⟨chat, ADMIN_USER_ID, subscribeSlash⟩
        ((handleMessageA ⟨chat, ADMIN_USER_ID, subscribeSlash⟩ subs gen pid).subs)
        gen pid).subs.filter (fun x => x = chat)).card = 1 ∧
    (handleMessageA ⟨chat, ADMIN_USER_ID, subscribeSlash⟩
        ((handleMessageA ⟨chat, ADMIN_USER_ID, subscribeSlash⟩ subs gen pid).subs)
        gen pid).subs
      = (handleMessageA ⟨chat, ADMIN_USER_ID, subscribeSlash⟩ subs gen pid).subs ∧
    (chat ∉ subs →
      (handleMessageA ⟨chat, ADMIN_USER_ID, unsubscribeSlash⟩ subs gen pid).subs
        = subs) ∧
    ((handleMessageB ⟨chat, ADMIN_USER_ID, subscribeSlash⟩
        ((handleMessageB ⟨chat, ADMIN_USER_ID, subscribeSlash⟩ subs gen pid).subs)
        gen pid).subs.filter (fun x => x = chat)).card = 1 ∧
    (handleMessageB ⟨chat, ADMIN_USER_ID, subscribeSlash⟩
        ((handleMessageB ⟨chat, ADMIN_USER_ID, subscribeSlash⟩ subs gen pid).subs)
        gen pid).subs
      = (handleMessageB ⟨chat, ADMIN_USER_ID, subscribeSlash⟩ subs gen pid).subs ∧
    (chat ∉ subs →
      (handleMessageB ⟨chat, ADMIN_USER_ID, unsubscribeSlash⟩ subs gen pid).subs
        = subs) := by
  have hsub : ∀ s : Finset Int,
      (handleMessageA ⟨chat, ADMIN_USER_ID, subscribeSlash⟩ s gen pid).subs
        = insert chat s := fun s => rfl
  have hsubB : ∀ s : Finset Int,
      (handleMessageB ⟨chat, ADMIN_USER_ID, subscribeSlash⟩ s gen pid).subs
        = insert chat s := fun s => rfl
  have huns : (handleMessageA ⟨chat, ADMIN_USER_ID, unsubscribeSlash⟩ subs gen pid).subs
      = subs.erase chat := rfl
  have hunsB : (handleMessageB ⟨chat, ADMIN_USER_ID, unsubscribeSlash⟩ subs gen pid).subs
      = subs.erase chat := rfl
  refine ⟨?_, ?_, ?_, ?_, ?_, ?_⟩
  · rw [hsub, hsub, Finset.insert_idem, Finset.filter_eq',
      if_pos (Finset.mem_insert_self chat subs), Finset.card_singleton]
  · rw [hsub, hsub, Finset.insert_idem]
  · intro hni
    rw [huns, Finset.erase_eq_of_not_mem hni]
  · rw [hsubB, hsubB, Finset.insert_idem, Finset.filter_eq',
      if_pos (Finset.mem_insert_self chat subs), Finset.card_singleton]
  · rw [hsubB, hsubB, Finset.insert_idem]
  · intro hni
    rw [hunsB, Finset.erase_eq_of_not_mem hni]

/-- Witness for C8_theorem: chat 5 on the empty subscriber set. -/
theorem C8_witness :
    ((handleMessageA ⟨5, ADMIN_USER_ID, subscribeSlash⟩
        ((handleMessageA ⟨5, ADMIN_USER_ID, subscribeSlash⟩ (∅ : Finset Int)
          (Except.ok sampleAnalytics) 0).subs)
        (Except.ok sampleAnalytics) 0).subs.filter (fun x => x = 5)).card = 1 ∧
    (handleMessageA ⟨5, ADMIN_USER_ID, subscribeSlash⟩
        ((handleMessageA ⟨5, ADMIN_USER_ID, subscribeSlash⟩ (∅ : Finset Int)
          (Except.ok sampleAnalytics) 0).subs)
        (Except.ok sampleAnalytics) 0).subs
      = (handleMessageA ⟨5, ADMIN_USER_ID, subscribeSlash⟩ (∅ : Finset Int)
          (Except.ok sampleAnalytics) 0).subs ∧
    ((5 : Int) ∉ (∅ : Finset Int) →
      (handleMessageA ⟨5, ADMIN_USER_ID, unsubscribeSlash⟩ (∅ : Finset Int)
        (Except.ok sampleAnalytics) 0).subs = ∅) ∧
    ((handleMessageB ⟨5, ADMIN_USER_ID, subscribeSlash⟩
        ((handleMessageB ⟨5, ADMIN_USER_ID, subscribeSlash⟩ (∅ : Finset Int)
          (Except.ok sampleAnalytics) 0).subs)
        (Except.ok sampleAnalytics) 0).subs.filter (fun x => x = 5)).card = 1 ∧
    (handleMessageB ⟨5, ADMIN_USER_ID, subscribeSlash⟩
        ((handleMessageB ⟨5, ADMIN_USER_ID, subscribeSlash⟩ (∅ : Finset Int)
          (Except.ok sampleAnalytics) 0).subs)
        (Except.ok sampleAnalytics) 0).subs
      = (handleMessageB ⟨5, ADMIN_USER_ID, subscribeSlash⟩ (∅ : Finset Int)
          (Except.ok sampleAnalytics) 0).subs ∧
    ((5 : Int) ∉ (∅ : Finset Int) →
      (handleMessageB ⟨5, ADMIN_USER_ID, unsubscribeSlash⟩ (∅ : Finset Int)
        (Except.ok sampleAnalytics) 0).subs = ∅) :=
  C8_theorem 5 ∅ (Except.ok sampleAnalytics) 0

/-- Claim C9: with no completion-API credential configured,
`GenerateAnalytics` returns the local canned fallback (formatted with the
current date) and no error, and the hosted endpoint is not called, whatever
that endpoint would have produced. -/
theorem C9_theorem (apiKey dateStr : String) (endpointOutcome : Except String String)
    (hkey : apiKey = emptyCredential) :
    generateAnalytics apiKey dateStr endpointOutcome
      = (Except.ok (getLocalAnalytics dateStr), false) := by
  subst hkey
  rfl

/-- Witness for C9_theorem: empty credential, endpoint that would fail. -/
theorem C9_witness :
    generateAnalytics emptyCredential sampleDate (Except.error failureMsg)
      = (Except.ok (getLocalAnalytics sampleDate), false) :=
  C9_theorem emptyCredential sampleDate (Except.error failureMsg) rfl

/-- Claim C10: for every combination of upstream outcomes, `GetMarketData`
returns a snapshot with a nil error; each failed fetch is replaced by its
stub (MOEX figures, empty news, stub stocks), and whenever the resulting
top-stocks list is non-empty the recommended stock is an element of it with
maximal change. -/
theorem C10_theorem (moexOutcome : Except String MarketData)
    (newsOutcome : Except String (List NewsItem))
    (stocksOutcome : Except String (List StockInfo)) :
    ∃ d : MarketData, getMarketData moexOutcome newsOutcome stocksOutcome = Except.ok d ∧
      (∀ e, moexOutcome = Except.error e →
        d.indexMOEX = stubMoexData.indexMOEX ∧ d.indexRTS = stubMoexData.indexRTS ∧
        d.usdRate = stubMoexData.usdRate ∧ d.eurRate = stubMoexData.eurRate ∧
        d.marketTrend = stubMoexData.marketTrend) ∧
      (∀ e, newsOutcome = Except.error e → d.marketNews = []) ∧
      (∀ e, stocksOutcome = Except.error e → d.topStocks = stubStocks) ∧
      (d.topStocks ≠ [] → d.recommendedStock ∈ d.topStocks ∧
        ∀ s ∈ d.topStocks, s.change ≤ d.recommendedStock.change) := by
  refine ⟨_, rfl, ?_, ?_, ?_, ?_⟩
  · intro e he
    subst he
    exact ⟨rfl, rfl, rfl, rfl, rfl⟩
  · intro e he
    subst he
    rfl
  · intro e he
    subst he
    rfl
  · rcases stocksOutcome with e3 | stocks
    · intro hne
      exact bestStockOf_head_mem stubGAZP [stubSBER, stubLKOH]
    · rcases stocks with _ | ⟨f, r⟩
      · intro hne
        exact absurd rfl hne
      · intro hne
        exact bestStockOf_head_mem f r

/-- Witness for C10_theorem: all three upstream fetches failing. -/
theorem C10_witness :
    ∃ d : MarketData, getMarketData (Except.error failureMsg) (Except.error failureMsg)
        (Except.error failureMsg) = Except.ok d ∧
      (∀ e, (Except.error failureMsg : Except String MarketData) = Except.error e →
        d.indexMOEX = stubMoexData.indexMOEX ∧ d.indexRTS = stubMoexData.indexRTS ∧
        d.usdRate = stubMoexData.usdRate ∧ d.eurRate = stubMoexData.eurRate ∧
        d.marketTrend = stubMoexData.marketTrend) ∧
      (∀ e, (Except.error failureMsg : Except String (List NewsItem)) = Except.error e →
        d.marketNews = []) ∧
      (∀ e, (Except.error failureMsg : Except String (List StockInfo)) = Except.error e →
        d.topStocks = stubStocks) ∧
      (d.topStocks ≠ [] → d.recommendedStock ∈ d.topStocks ∧
        ∀ s ∈ d.topStocks, s.change ≤ d.recommendedStock.change) :=
  C10_theorem (Except.error failureMsg) (Except.error failureMsg) (Except.error failureMsg)
